import Mathlib

/-!
Verification of the Tensorflow-Learning repository's specification.

The repository is graph-assembly glue: its functions stack framework layer
calls in a fixed topology.  We embed each script as a pure function that
produces the trace of framework operations it would emit, in order, and
prove the specified structural properties of those traces.
-/

/-! ## ResNet model (`resnet/resnet_model.py`)

Each tensor-building helper is embedded as a function returning the list of
graph operations it appends, in the order the source creates them. -/

/-- A graph operation emitted by the ResNet assembly code. -/
inductive Op where
  | transpose (perm : List Nat)
  | pad (paddings : List (Nat × Nat))
  | conv2d (filters kernel_size strides : Nat) (padding : String)
  | batchNorm (axis : Nat) (training : Bool)
  | relu
  | residualAdd
  | identity (name : String)
  | avgPool (pool_size strides : Nat) (padding : String)
  | reshape (shape : List Int)
  | dense (units : Nat)
deriving DecidableEq

/-- Normalization axis chosen by `batch_norm_relu`:
`axis=1 if data_format == 'channel_first' else 3` (note the source compares
against the string `'channel_first'`, not `'channels_first'`). -/
def bn_axis (data_format : String) : Nat :=
  if data_format = "channel_first" then 1 else 3

/-- Trace of `batch_norm_relu`: a batch normalization followed by a ReLU. -/
def batch_norm_relu (is_training : Bool) (data_format : String) : List Op :=
  [Op.batchNorm (bn_axis data_format) is_training, Op.relu]

/-- Paddings passed to `tf.pad` by `fixed_padding`, one `(begin, end)` pair per
input dimension in order. -/
def fixed_padding (kernel_size : Nat) (data_format : String) : List (Nat × Nat) :=
  let pad_total := kernel_size - 1
  let pad_beg := pad_total / 2
  let pad_end := pad_total - pad_beg
  if data_format = "channels_first" then
    [(0, 0), (0, 0), (pad_beg, pad_end), (pad_beg, pad_end)]
  else
    [(0, 0), (pad_beg, pad_end), (pad_beg, pad_end), (0, 0)]

/-- Trace of `conv2d_fixed_padding`: an explicit pad when `strides > 1`,
then a conv2d with `SAME` padding for stride 1 and `VALID` otherwise. -/
def conv2d_fixed_padding (filters kernel_size strides : Nat)
    (data_format : String) : List Op :=
  (if strides > 1 then [Op.pad (fixed_padding kernel_size data_format)] else [])
  ++ [Op.conv2d filters kernel_size strides (if strides = 1 then "SAME" else "VALID")]

/-- Trace of `building_block`: batch-norm/ReLU, optional projection shortcut,
two 3x3 convolutions with a batch-norm/ReLU between, and the residual sum. -/
def building_block (filters : Nat) (is_training : Bool)
    (projection_shortcut : Option (List Op)) (strides : Nat)
    (data_format : String) : List Op :=
  batch_norm_relu is_training data_format
  ++ (match projection_shortcut with
      | none => []
      | some ops => ops)
  ++ conv2d_fixed_padding filters 3 strides data_format
  ++ batch_norm_relu is_training data_format
  ++ conv2d_fixed_padding filters 3 1 data_format
  ++ [Op.residualAdd]

/-- Trace of `bottleneck_block`: batch-norm/ReLU, optional projection shortcut,
1x1, 3x3 and 1x1 convolutions (the last with `4 * filters` filters) with
batch-norm/ReLU between them, and the residual sum. -/
def bottleneck_block (filters : Nat) (is_training : Bool)
    (projection_shortcut : Option (List Op)) (strides : Nat)
    (data_format : String) : List Op :=
  batch_norm_relu is_training data_format
  ++ (match projection_shortcut with
      | none => []
      | some ops => ops)
  ++ conv2d_fixed_padding filters 1 1 data_format
  ++ batch_norm_relu is_training data_format
  ++ conv2d_fixed_padding filters 3 strides data_format
  ++ batch_norm_relu is_training data_format
  ++ conv2d_fixed_padding (4 * filters) 1 1 data_format
  ++ [Op.residualAdd]

/-- The two block functions a block layer can be built from. -/
inductive BlockFn where
  | building
  | bottleneck
deriving DecidableEq

/-- Dispatch on the `block_fn` argument of `block_layer`. -/
def applyBlockFn (block_fn : BlockFn) (filters : Nat) (is_training : Bool)
    (projection_shortcut : Option (List Op)) (strides : Nat)
    (data_format : String) : List Op :=
  match block_fn with
  | BlockFn.building =>
      building_block filters is_training projection_shortcut strides data_format
  | BlockFn.bottleneck =>
      bottleneck_block filters is_training projection_shortcut strides data_format

/-- Trace of `block_layer`: the first block with the projection shortcut and
the given strides, then one block per iteration of `range(1, blocks)` with no
shortcut and stride 1, then a named identity.  `blocks` is an `Int` because
the Python value `(resnet_size - 2) // 6` may be zero or negative. -/
def block_layer (filters : Nat) (block_fn : BlockFn) (blocks : Int)
    (strides : Nat) (is_training : Bool) (name : String)
    (data_format : String) : List Op :=
  let filters_out := if block_fn = BlockFn.bottleneck then 4 * filters else filters
  let projection_shortcut : List Op :=
    conv2d_fixed_padding filters_out 1 strides data_format
  applyBlockFn block_fn filters is_training (some projection_shortcut)
      strides data_format
  ++ (List.range (blocks - 1).toNat).flatMap
      (fun _ => applyBlockFn block_fn filters is_training none 1 data_format)
  ++ [Op.identity name]

/-- The error raised by `cifar10_resnet_v2_generator`. -/
inductive ResnetError where
  | valueError (msg : String) (resnet_size : Int)
deriving DecidableEq

/-- Resolution of the generator's optional `data_format` argument: `None`
defaults on whether the framework build has CUDA. -/
def resolve_data_format (data_format : Option String) (built_with_cuda : Bool) :
    String :=
  match data_format with
  | some s => s
  | none => if built_with_cuda then "channels_first" else "channels_last"

/-- Embedding of `cifar10_resnet_v2_generator`: validates `resnet_size`, then
returns the model closure mapping `is_training` to the trace of the assembled
graph.  Python `%` and `//` with positive divisor agree with `Int.emod` and
`Int.ediv`, which are Lean's `%` and `/` on `Int`. -/
def cifar10_resnet_v2_generator (resnet_size : Int) (num_classes : Nat)
    (data_format : Option String) (built_with_cuda : Bool) :
    Except ResnetError (Bool → List Op) :=
  if resnet_size % 6 ≠ 2 then
    Except.error (ResnetError.valueError "resnet_size must be 6n + 2:" resnet_size)
  else
    let num_blocks : Int := (resnet_size - 2) / 6
    let df := resolve_data_format data_format built_with_cuda
    Except.ok (fun is_training =>
      (if df = "channels_first" then [Op.transpose [0, 3, 1, 2]] else [])
      ++ conv2d_fixed_padding 16 3 1 df
      ++ [Op.identity "initial_conv"]
      ++ block_layer 16 BlockFn.building num_blocks 1 is_training "block_layer1" df
      ++ block_layer 32 BlockFn.building num_blocks 2 is_training "block_layer2" df
      ++ block_layer 64 BlockFn.building num_blocks 2 is_training "block_layer3" df
      ++ batch_norm_relu is_training df
      ++ [Op.avgPool 8 1 "VALID", Op.identity "final_avg_pool",
          Op.reshape [-1, 64], Op.dense num_classes, Op.identity "final_dense"])

/-- Number of residual additions in a trace; each residual block contributes
exactly one, so this counts the blocks a trace contains. -/
def countAdds (ops : List Op) : Nat := ops.count Op.residualAdd

theorem countAdds_append (xs ys : List Op) :
    countAdds (xs ++ ys) = countAdds xs + countAdds ys :=
  List.count_append _ _ _

theorem countAdds_conv2d_fixed_padding (f k s : Nat) (df : String) :
    countAdds (conv2d_fixed_padding f k s df) = 0 := by
  unfold conv2d_fixed_padding countAdds
  by_cases h : s > 1 <;> simp [h, List.count_cons, List.count_singleton]

theorem countAdds_batch_norm_relu (t : Bool) (df : String) :
    countAdds (batch_norm_relu t df) = 0 := by
  simp [batch_norm_relu, countAdds, List.count_cons]

theorem countAdds_building_block (f : Nat) (t : Bool) (proj : Option (List Op))
    (s : Nat) (df : String) :
    countAdds (building_block f t proj s df)
      = countAdds (match proj with | none => [] | some ops => ops) + 1 := by
  unfold building_block
  simp only [countAdds_append, countAdds_batch_norm_relu,
    countAdds_conv2d_fixed_padding]
  simp [countAdds, List.count_singleton]

theorem countAdds_bottleneck_block (f : Nat) (t : Bool) (proj : Option (List Op))
    (s : Nat) (df : String) :
    countAdds (bottleneck_block f t proj s df)
      = countAdds (match proj with | none => [] | some ops => ops) + 1 := by
  unfold bottleneck_block
  simp only [countAdds_append, countAdds_batch_norm_relu,
    countAdds_conv2d_fixed_padding]
  simp [countAdds, List.count_singleton]

theorem countAdds_applyBlockFn (fn : BlockFn) (f : Nat) (t : Bool)
    (proj : Option (List Op)) (s : Nat) (df : String)
    (hproj : countAdds (match proj with | none => [] | some ops => ops) = 0) :
    countAdds (applyBlockFn fn f t proj s df) = 1 := by
  cases fn <;>
    simp [applyBlockFn, countAdds_building_block, countAdds_bottleneck_block, hproj]

theorem countAdds_flatMap_const (n : Nat) (b : List Op) :
    countAdds ((List.range n).flatMap (fun _ => b)) = n * countAdds b := by
  induction n with
  | zero => simp [countAdds]
  | succ n ih =>
      rw [List.range_succ, List.flatMap_append, countAdds_append, ih]
      simp [countAdds, Nat.succ_mul]

/-- The number of residual blocks actually assembled by `block_layer`: one
unconditional first block plus one per iteration of `range(1, blocks)`. -/
theorem countAdds_block_layer (f : Nat) (fn : BlockFn) (blocks : Int) (s : Nat)
    (t : Bool) (name : String) (df : String) :
    countAdds (block_layer f fn blocks s t name df) = 1 + (blocks - 1).toNat := by
  unfold block_layer
  simp only [countAdds_append, countAdds_flatMap_const]
  rw [countAdds_applyBlockFn _ _ _ _ _ _ (by simp [countAdds_conv2d_fixed_padding]),
    countAdds_applyBlockFn _ _ _ _ _ _ (by simp [countAdds])]
  simp [countAdds, List.count_singleton]

/-- Step function remembering the filter count of the most recent conv2d. -/
def convFold (acc : Option Nat) (op : Op) : Option Nat :=
  match op with
  | Op.conv2d f _ _ _ => some f
  | _ => acc

/-- Filter count of the last convolution of a trace: the number of output
channels the traced subgraph produces. -/
def lastConvFilters (ops : List Op) : Option Nat :=
  ops.foldl convFold none

theorem convFold_conv2d_fixed_padding (a : Option Nat) (f k s : Nat)
    (df : String) :
    List.foldl convFold a (conv2d_fixed_padding f k s df) = some f := by
  unfold conv2d_fixed_padding
  by_cases h : s > 1 <;> simp [h, convFold]

theorem convFold_batch_norm_relu (a : Option Nat) (t : Bool) (df : String) :
    List.foldl convFold a (batch_norm_relu t df) = a := rfl

theorem convFold_applyBlockFn (fn : BlockFn) (f : Nat) (t : Bool)
    (proj : Option (List Op)) (s : Nat) (df : String) (a : Option Nat) :
    List.foldl convFold a (applyBlockFn fn f t proj s df)
      = some (if fn = BlockFn.bottleneck then 4 * f else f) := by
  cases fn <;>
    · unfold applyBlockFn building_block bottleneck_block
      simp only [List.foldl_append, convFold_batch_norm_relu]
      rw [convFold_conv2d_fixed_padding]
      rfl

theorem convFold_flatMap_const (b : List Op) (t : Option Nat)
    (hb : ∀ a, List.foldl convFold a b = t) (n : Nat) :
    List.foldl convFold t ((List.range n).flatMap (fun _ => b)) = t := by
  induction n with
  | zero => rfl
  | succ n ih =>
      rw [List.range_succ, List.flatMap_append, List.foldl_append, ih]
      simp [hb]

theorem flatMap_const_eq_replicate_join {α : Type} (n : Nat) (b : List α) :
    (List.range n).flatMap (fun _ => b) = (List.replicate n b).flatten := by
  induction n with
  | zero => rfl
  | succ n ih =>
      rw [List.range_succ, List.flatMap_append, ih, List.replicate_succ',
        List.flatten_append]
      simp

theorem lastConvFilters_block_layer (filters : Nat) (fn : BlockFn)
    (blocks : Int) (strides : Nat) (t : Bool) (name : String) (df : String) :
    lastConvFilters (block_layer filters fn blocks strides t name df)
      = some (if fn = BlockFn.bottleneck then 4 * filters else filters) := by
  unfold lastConvFilters block_layer
  simp only [List.foldl_append]
  rw [convFold_applyBlockFn,
    convFold_flatMap_const _ _ (fun a => convFold_applyBlockFn fn filters t none 1 df a)]
  rfl

/-- C9: `block_layer` gives the projection shortcut and the requested strides
only to its first block, applies each of the remaining `blocks - 1` blocks
with no shortcut and stride 1, and its trace ends in `4 * filters` output
channels exactly when the block function is the bottleneck block, otherwise
`filters`. -/
theorem block_layer_blocks_spec (filters : Nat) (block_fn : BlockFn)
    (blocks : Int) (strides : Nat) (is_training : Bool) (name : String)
    (data_format : String) (h : 1 ≤ blocks) :
    block_layer filters block_fn blocks strides is_training name data_format
      = applyBlockFn block_fn filters is_training
          (some (conv2d_fixed_padding
            (if block_fn = BlockFn.bottleneck then 4 * filters else filters)
            1 strides data_format))
          strides data_format
        ++ (List.replicate (blocks - 1).toNat
              (applyBlockFn block_fn filters is_training none 1 data_format)).flatten
        ++ [Op.identity name]
    ∧ lastConvFilters
        (block_layer filters block_fn blocks strides is_training name data_format)
      = some (if block_fn = BlockFn.bottleneck then 4 * filters else filters) := by
  constructor
  · unfold block_layer
    rw [flatMap_const_eq_replicate_join]
  · exact lastConvFilters_block_layer filters block_fn blocks strides is_training
      name data_format

theorem block_layer_blocks_spec_witness :
    (1 : Int) ≤ 3
    ∧ lastConvFilters (block_layer 16 BlockFn.building 3 2 true "bl"
        "channels_last") = some 16 := by
  refine ⟨by decide, ?_⟩
  exact (block_layer_blocks_spec 16 BlockFn.building 3 2 true "bl"
    "channels_last" (by decide)).2

/-- C1: `cifar10_resnet_v2_generator` raises a `ValueError` exactly when
`resnet_size % 6 != 2`, and otherwise returns a model function. -/
theorem cifar10_generator_valueError_iff (resnet_size : Int) (num_classes : Nat)
    (data_format : Option String) (built_with_cuda : Bool) :
    ((∃ e, cifar10_resnet_v2_generator resnet_size num_classes data_format
            built_with_cuda = Except.error e)
      ↔ resnet_size % 6 ≠ 2)
    ∧ ((∃ m, cifar10_resnet_v2_generator resnet_size num_classes data_format
            built_with_cuda = Except.ok m)
      ↔ resnet_size % 6 = 2) := by
  unfold cifar10_resnet_v2_generator
  by_cases h : resnet_size % 6 = 2 <;> simp [h]

/-- C7: `fixed_padding` pads each spatial dimension by a total of
`kernel_size - 1`, split as `pad_beg = (kernel_size - 1) / 2` at the start and
the remainder at the end, leaves batch and channel dimensions unpadded, and
pads nothing at all when `kernel_size = 1`. -/
theorem fixed_padding_spec (kernel_size : Nat) (data_format : String)
    (h : 1 ≤ kernel_size) :
    (fixed_padding kernel_size data_format).length = 4
    ∧ (fixed_padding kernel_size data_format).get? 0 = some (0, 0)
    ∧ (fixed_padding kernel_size data_format).get?
        (if data_format = "channels_first" then 1 else 3) = some (0, 0)
    ∧ (∀ i, i = (if data_format = "channels_first" then 2 else 1)
          ∨ i = (if data_format = "channels_first" then 3 else 2) →
        (fixed_padding kernel_size data_format).get? i
          = some ((kernel_size - 1) / 2,
                  (kernel_size - 1) - (kernel_size - 1) / 2))
    ∧ (kernel_size - 1) / 2 + ((kernel_size - 1) - (kernel_size - 1) / 2)
        = kernel_size - 1
    ∧ (((kernel_size - 1) - (kernel_size - 1) / 2) - (kernel_size - 1) / 2 = 0
        ∨ ((kernel_size - 1) - (kernel_size - 1) / 2) - (kernel_size - 1) / 2 = 1)
    ∧ (kernel_size = 1 →
        fixed_padding kernel_size data_format = [(0, 0), (0, 0), (0, 0), (0, 0)]) := by
  unfold fixed_padding
  by_cases hdf : data_format = "channels_first" <;>
    simp only [hdf, if_pos, if_neg, ite_true, ite_false] <;>
    refine ⟨rfl, rfl, rfl, ?_, by omega, by omega, ?_⟩ <;>
    first
      | (intro i hi
         rcases hi with hi | hi <;> subst hi <;> rfl)
      | (intro h1
         subst h1
         rfl)

theorem fixed_padding_spec_witness :
    1 ≤ 3
    ∧ (fixed_padding 3 "channels_last").get? 1 = some (1, 1)
    ∧ (fixed_padding 3 "channels_last").get? 0 = some (0, 0)
    ∧ (fixed_padding 3 "channels_last").get? 3 = some (0, 0) := by
  obtain ⟨hlen, hbatch, hchan, hspatial, hsum, hdiff, hone⟩ :=
    fixed_padding_spec 3 "channels_last" (by decide)
  exact ⟨by decide, hspatial 1 (Or.inl (by decide)), hbatch, hchan⟩

/-- C8: `batch_norm_relu` normalizes along axis 1 only when `data_format` is
the exact string `"channel_first"`; every other value, including the spelling
`"channels_first"` used by the rest of the module, selects axis 3. -/
theorem batch_norm_axis_spec (is_training : Bool) (data_format : String) :
    ((batch_norm_relu is_training data_format).head?
        = some (Op.batchNorm 1 is_training) ↔ data_format = "channel_first")
    ∧ (data_format ≠ "channel_first" →
        (batch_norm_relu is_training data_format).head?
          = some (Op.batchNorm 3 is_training))
    ∧ bn_axis "channels_first" = 3 := by
  unfold batch_norm_relu bn_axis
  by_cases h : data_format = "channel_first" <;> simp [h]

theorem batch_norm_axis_spec_witness :
    ("channels_first" : String) ≠ "channel_first"
    ∧ (batch_norm_relu true "channels_first").head?
        = some (Op.batchNorm 3 true) := by
  refine ⟨by decide, ?_⟩
  exact (batch_norm_axis_spec true "channels_first").2.1 (by decide)

/-- The model closure produced by a successful generator call (the empty
trace stands in for the error case, which never occurs below). -/
def generated_model (resnet_size : Int) (num_classes : Nat)
    (data_format : Option String) (built_with_cuda : Bool) : Bool → List Op :=
  match cifar10_resnet_v2_generator resnet_size num_classes data_format
      built_with_cuda with
  | Except.ok m => m
  | Except.error _ => fun _ => []

theorem one_add_sub_one_toNat (k : Int) : 1 + (k - 1).toNat = max 1 k.toNat := by
  omega

/-- C3 (amended): for `resnet_size % 6 == 2` the returned closure assembles,
in order, the initial convolution, three block layers of building blocks each
containing `max 1 ((resnet_size - 2) / 6)` blocks, the final batch-norm/ReLU,
average pooling, and a dense layer with `num_classes` units. -/
theorem cifar10_model_structure (resnet_size : Int) (num_classes : Nat)
    (data_format : Option String) (built_with_cuda : Bool) (is_training : Bool)
    (h : resnet_size % 6 = 2) :
    ∃ m, cifar10_resnet_v2_generator resnet_size num_classes data_format
          built_with_cuda = Except.ok m
      ∧ m is_training =
          (if resolve_data_format data_format built_with_cuda = "channels_first"
           then [Op.transpose [0, 3, 1, 2]] else [])
          ++ conv2d_fixed_padding 16 3 1
              (resolve_data_format data_format built_with_cuda)
          ++ [Op.identity "initial_conv"]
          ++ block_layer 16 BlockFn.building ((resnet_size - 2) / 6) 1 is_training
              "block_layer1" (resolve_data_format data_format built_with_cuda)
          ++ block_layer 32 BlockFn.building ((resnet_size - 2) / 6) 2 is_training
              "block_layer2" (resolve_data_format data_format built_with_cuda)
          ++ block_layer 64 BlockFn.building ((resnet_size - 2) / 6) 2 is_training
              "block_layer3" (resolve_data_format data_format built_with_cuda)
          ++ batch_norm_relu is_training
              (resolve_data_format data_format built_with_cuda)
          ++ [Op.avgPool 8 1 "VALID", Op.identity "final_avg_pool",
              Op.reshape [-1, 64], Op.dense num_classes, Op.identity "final_dense"]
      ∧ (∀ f s name,
          countAdds (block_layer f BlockFn.building ((resnet_size - 2) / 6) s
              is_training name (resolve_data_format data_format built_with_cuda))
            = max 1 ((resnet_size - 2) / 6).toNat) := by
  unfold cifar10_resnet_v2_generator
  rw [if_neg (by simp [h])]
  refine ⟨_, rfl, rfl, ?_⟩
  intro f s name
  rw [countAdds_block_layer, one_add_sub_one_toNat]

theorem cifar10_model_structure_witness :
    (20 : Int) % 6 = 2
    ∧ ∃ m, cifar10_resnet_v2_generator 20 10 (some "channels_last") false
          = Except.ok m
        ∧ countAdds (m true) = 9 := by
  obtain ⟨m, hok, htrace, hcount⟩ :=
    cifar10_model_structure 20 10 (some "channels_last") false true (by decide)
  refine ⟨by decide, m, hok, ?_⟩
  rw [htrace]
  decide

/-- C3 (counterexample): `resnet_size = 2` passes the validity check with
`num_blocks = (2 - 2) / 6 = 0`, yet the assembled model contains one residual
block per block layer (three in total), not zero, because `block_layer`
applies its first block before the `range(1, blocks)` loop. -/
theorem cifar10_model_structure_counterexample :
    (2 : Int) % 6 = 2
    ∧ ((2 : Int) - 2) / 6 = 0
    ∧ countAdds (generated_model 2 10 (some "channels_last") false true) = 3 := by
  decide

theorem cifar10_generator_valueError_iff_witness :
    (∃ m, cifar10_resnet_v2_generator 20 10 none false = Except.ok m)
    ∧ ¬ ∃ m, cifar10_resnet_v2_generator 21 10 none false = Except.ok m := by
  constructor
  · exact (cifar10_generator_valueError_iff 20 10 none false).2.mpr (by decide)
  · intro hm
    exact absurd ((cifar10_generator_valueError_iff 21 10 none false).2.mp hm)
      (by decide)

/-! ## TensorBoard demo (`tensorboard/tensorboard_1.py`)

The script's graph assembly and training loop are embedded as traces.  The
learning rate is a float consumed only by the external optimizer and by the
log-directory name; the single rate `1E-4` that `main` uses appears in the
hyper-parameter string through its literal `"%.0E"` rendering. -/

/-- A graph operation emitted by the TensorBoard demo. -/
inductive TOp where
  | imageSummary (tag : String) (max_outputs : Nat)
  | conv2d (size_in size_out : Nat) (scope : String)
  | relu
  | maxPool
  | reshape (k : Nat)
  | matmul (size_in size_out : Nat) (scope : String)
  | histogramSummary (scope tag : String)
  | scalarSummary (scope tag : String)
  | softmaxCrossEntropy
  | adagradMinimize
  | accuracyOps
  | mergeAll
  | assignEmbedding (size : Nat)
deriving DecidableEq

/-- Trace of `conv_layer`: a 5x5 convolution, ReLU, three histogram
summaries, and a 2x2 max pooling. -/
def conv_layer (size_in size_out : Nat) (name : String) : List TOp :=
  [TOp.conv2d size_in size_out name, TOp.relu,
   TOp.histogramSummary name "weights", TOp.histogramSummary name "biases",
   TOp.histogramSummary name "activations", TOp.maxPool]

/-- Trace of `fc_layer`: a matrix multiply, ReLU, and three histogram
summaries. -/
def fc_layer (size_in size_out : Nat) (name : String) : List TOp :=
  [TOp.matmul size_in size_out name, TOp.relu,
   TOp.histogramSummary name "weights", TOp.histogramSummary name "biases",
   TOp.histogramSummary name "activations"]

/-- One session event of the training loop. -/
inductive SessEvent where
  | nextBatch (i : Nat)
  | evalSummary (i : Nat)
  | addSummary (i : Nat)
  | runTrainStep (i : Nat)
deriving DecidableEq

/-- The training loop `for i in range(501)`: fetch a batch, evaluate the
merged summary, write it at step `i`, then run one optimizer step. -/
def train_loop : List SessEvent :=
  (List.range 501).flatMap (fun i =>
    [SessEvent.nextBatch i, SessEvent.evalSummary i, SessEvent.addSummary i,
     SessEvent.runTrainStep i])

/-- Result of one `mnist_model` invocation: the assembled graph and the
session events of its training loop. -/
structure MnistRun where
  hparam : String
  graph : List TOp
  events : List SessEvent
deriving DecidableEq

/-- Embedding of `mnist_model`: assembles the classifier graph according to
`use_two_conv` / `use_two_fc` and runs the 501-iteration training loop. -/
def mnist_model (use_two_conv use_two_fc : Bool) (hparam : String) : MnistRun :=
  let convPart :=
    if use_two_conv then conv_layer 1 32 "conv1" ++ conv_layer 32 64 "conv2"
    else conv_layer 1 64 "conv" ++ [TOp.maxPool]
  let fcPart :=
    if use_two_fc then fc_layer (7 * 7 * 64) 1024 "fc1" ++ fc_layer 1024 10 "fc2"
    else fc_layer (7 * 7 * 64) 10 "fc"
  let embedding_size := if use_two_fc then 1024 else 7 * 7 * 64
  { hparam := hparam
    graph := [TOp.imageSummary "input" 3]
      ++ convPart
      ++ [TOp.reshape (7 * 7 * 64)]
      ++ fcPart
      ++ [TOp.softmaxCrossEntropy, TOp.scalarSummary "loss" "loss",
          TOp.adagradMinimize, TOp.accuracyOps,
          TOp.scalarSummary "accuracy" "accuracy", TOp.mergeAll,
          TOp.assignEmbedding embedding_size]
    events := train_loop }

/-- Embedding of `make_hparam_string` at the learning rate `main` uses
(`"%.0E" % 1e-4` renders as `1E-04`). -/
def make_hparam_string (use_two_fc use_two_conv : Bool) : String :=
  "lr_1E-04," ++ (if use_two_conv then "conv=2" else "conv=1")
    ++ "," ++ (if use_two_fc then "fc=2" else "fc=1")

/-- Embedding of `main`: iterates over the singleton hyper-parameter grids and
invokes `mnist_model`.  The source passes `use_two_fc` and `use_two_conv`
positionally in that order into parameters declared as
`(use_two_conv, use_two_fc)`, which this definition reproduces. -/
def tensorboard_main : List MnistRun :=
  [true].flatMap (fun use_two_fc =>
    [true].flatMap (fun use_two_conv =>
      [mnist_model use_two_fc use_two_conv
        (make_hparam_string use_two_fc use_two_conv)]))

/-- Steps at which the loop writes a merged summary record. -/
def addSummarySteps (events : List SessEvent) : List Nat :=
  events.filterMap (fun e =>
    match e with
    | SessEvent.addSummary i => some i
    | _ => none)

/-- Steps at which the loop runs the optimizer. -/
def trainSteps (events : List SessEvent) : List Nat :=
  events.filterMap (fun e =>
    match e with
    | SessEvent.runTrainStep i => some i
    | _ => none)

/-- Number of convolutional layers in a graph. -/
def countConvs (g : List TOp) : Nat :=
  g.countP (fun op =>
    match op with
    | TOp.conv2d _ _ _ => true
    | _ => false)

/-- Number of fully-connected layers in a graph. -/
def countFcs (g : List TOp) : Nat :=
  g.countP (fun op =>
    match op with
    | TOp.matmul _ _ _ => true
    | _ => false)

/-- Number of histogram summaries attached to a graph. -/
def countHistSummaries (g : List TOp) : Nat :=
  g.countP (fun op =>
    match op with
    | TOp.histogramSummary _ _ => true
    | _ => false)

/-- Number of scalar summaries attached to a graph. -/
def countScalarSummaries (g : List TOp) : Nat :=
  g.countP (fun op =>
    match op with
    | TOp.scalarSummary _ _ => true
    | _ => false)

set_option maxRecDepth 4000 in
/-- C4: every run performed by `main` builds a classifier with two
convolutional and two fully-connected layers, attaches histogram and scalar
summaries, and trains for 501 iterations, writing exactly one merged summary
record per iteration. -/
theorem tensorboard_main_spec :
    tensorboard_main.map (fun r => countConvs r.graph) = [2]
    ∧ tensorboard_main.map (fun r => countFcs r.graph) = [2]
    ∧ tensorboard_main.map (fun r => countHistSummaries r.graph) = [12]
    ∧ tensorboard_main.map (fun r => countScalarSummaries r.graph) = [2]
    ∧ tensorboard_main.map (fun r => trainSteps r.events) = [List.range 501]
    ∧ tensorboard_main.map (fun r => addSummarySteps r.events) = [List.range 501] := by
  refine ⟨rfl, rfl, rfl, rfl, ?_, ?_⟩ <;> decide

/-! ## AlexNet inference driver (`Alexnet/alexnet_test.py`)

Images, the pretrained network and the softmax evaluation are external, so
the per-image pipeline is embedded symbolically: preprocessing is a term
recording the operations applied, and the session's softmax evaluation is an
arbitrary function from preprocessed images to rational score lists. -/

/-- A preprocessed image: the raw decoded image together with the recorded
preprocessing operations applied to it. -/
inductive PrepImg where
  | raw (key : String)
  | resized (img : PrepImg) (width height : Nat)
  | subMean (img : PrepImg) (mean : List ℚ)
deriving DecidableEq

/-- The per-channel mean `imgMean = np.array([104, 117, 124])`. -/
def imgMean : List ℚ := [104, 117, 124]

/-- Preprocessing applied to each image:
`cv2.resize(img.astype(np.float), (227, 227)) - imgMean`. -/
def preprocess (key : String) : PrepImg :=
  PrepImg.subMean (PrepImg.resized (PrepImg.raw key) 227 227) imgMean

/-- Maximum of a score list (0 for the empty list, which never occurs). -/
def listMax : List ℚ → ℚ
  | [] => 0
  | x :: xs => xs.foldl max x

/-- Models `np.argmax`: the first index at which the maximum occurs. -/
def npArgmax (scores : List ℚ) : Nat := scores.indexOf (listMax scores)

theorem foldl_max_mem (xs : List ℚ) (a : ℚ) : xs.foldl max a ∈ a :: xs := by
  induction xs generalizing a with
  | nil => simp
  | cons x xs ih =>
      simp only [List.foldl_cons]
      have h := ih (max a x)
      rcases List.mem_cons.mp h with heq | hmem
      · rcases max_choice a x with hm | hm
        · rw [heq, hm]
          exact List.mem_cons_self a (x :: xs)
        · rw [heq, hm]
          exact List.mem_cons_of_mem a (List.mem_cons_self x xs)
      · exact List.mem_cons_of_mem a (List.mem_cons_of_mem x hmem)

theorem le_foldl_max (xs : List ℚ) (a : ℚ) :
    a ≤ xs.foldl max a ∧ ∀ b ∈ xs, b ≤ xs.foldl max a := by
  induction xs generalizing a with
  | nil => simp
  | cons x xs ih =>
      simp only [List.foldl_cons]
      obtain ⟨h1, h2⟩ := ih (max a x)
      refine ⟨le_trans (le_max_left a x) h1, ?_⟩
      intro b hb
      rcases List.mem_cons.mp hb with hb | hb
      · subst hb
        exact le_trans (le_max_right _ _) h1
      · exact h2 b hb

theorem listMax_mem (l : List ℚ) (h : l ≠ []) : listMax l ∈ l := by
  cases l with
  | nil => exact absurd rfl h
  | cons x xs => exact foldl_max_mem xs x

theorem le_listMax (l : List ℚ) (b : ℚ) (hb : b ∈ l) : b ≤ listMax l := by
  cases l with
  | nil => exact absurd hb (List.not_mem_nil b)
  | cons x xs =>
      rcases List.mem_cons.mp hb with h | h
      · exact h ▸ (le_foldl_max xs x).1
      · exact (le_foldl_max xs x).2 b h

theorem npArgmax_lt (l : List ℚ) (h : l ≠ []) : npArgmax l < l.length :=
  List.indexOf_lt_length.mpr (listMax_mem l h)

theorem get_npArgmax (l : List ℚ) (hlt : npArgmax l < l.length) :
    l.get ⟨npArgmax l, hlt⟩ = listMax l :=
  List.indexOf_get hlt

/-- The classification line printed for one image, `None` when the argmax
index falls outside `class_names` (Python would raise an `IndexError`). -/
def classify_line (net : PrepImg → List ℚ) (class_names : List String)
    (key : String) : Option String :=
  match class_names.get? (npArgmax (net (preprocess key))) with
  | none => none
  | some res => some (key ++ ": " ++ res ++ "\n --- ")

/-- C5: each image is resized to 227x227, normalized by subtracting the
per-channel mean `[104, 117, 124]`, scored by the network, and the printed
label is the class name at the first index of maximal softmax score. -/
theorem alexnet_classify_spec (net : PrepImg → List ℚ)
    (class_names : List String) (key : String)
    (hidx : npArgmax (net (preprocess key)) < class_names.length)
    (hne : net (preprocess key) ≠ []) :
    preprocess key
      = PrepImg.subMean (PrepImg.resized (PrepImg.raw key) 227 227) [104, 117, 124]
    ∧ classify_line net class_names key
        = some (key ++ ": "
            ++ class_names.get ⟨npArgmax (net (preprocess key)), hidx⟩
            ++ "\n --- ")
    ∧ ∃ hlt : npArgmax (net (preprocess key)) < (net (preprocess key)).length,
        ∀ s ∈ net (preprocess key),
          s ≤ (net (preprocess key)).get ⟨npArgmax (net (preprocess key)), hlt⟩ := by
  refine ⟨rfl, ?_, ?_⟩
  · unfold classify_line
    rw [List.get?_eq_get hidx]
  · refine ⟨npArgmax_lt _ hne, ?_⟩
    intro s hs
    rw [get_npArgmax]
    exact le_listMax _ s hs

theorem alexnet_classify_spec_witness :
    npArgmax ((fun _ => [(1 : ℚ), 3, 2]) (preprocess "img"))
        < (["cat", "dog", "bird"] : List String).length
    ∧ ((fun _ => [(1 : ℚ), 3, 2]) (preprocess "img") : List ℚ) ≠ []
    ∧ classify_line (fun _ => [(1 : ℚ), 3, 2]) ["cat", "dog", "bird"] "img"
        = some "img: dog\n --- " := by
  obtain ⟨h1, h2, h3⟩ := alexnet_classify_spec (fun _ => [(1 : ℚ), 3, 2])
    ["cat", "dog", "bird"] "img" (by decide) (by decide)
  refine ⟨by decide, by decide, ?_⟩
  rw [h2]
  rfl

/-- The two accepted values of the script's positional `mode` argument. -/
inductive AlexMode where
  | folder
  | url
deriving DecidableEq

/-- The printing loop over `testImg.items()`: one line per image, stopping
with an `IndexError` if the argmax index falls outside `class_names`.  An
empty image dict makes `if testImg.values():` skip the body, which coincides
with the loop printing nothing. -/
def alexnet_print_loop (net : PrepImg → List ℚ) (class_names : List String) :
    List String → List String × Option String
  | [] => ([], none)
  | key :: keys =>
      match classify_line net class_names key with
      | none => ([], some "IndexError: list index out of range")
      | some line =>
          let rest := alexnet_print_loop net class_names keys
          (line :: rest.1, rest.2)

/-- Embedding of the script's top level: in `folder` mode `testImg` is bound
to the images read from the folder; the `url` branch only defines the helper
`url2img` and never binds `testImg`, so the subsequent `if testImg.values():`
raises a `NameError`.  The result is the list of lines printed before the
script finishes or dies, paired with the uncaught exception if any. -/
def alexnet_script (mode : AlexMode) (folder_keys : List String)
    (net : PrepImg → List ℚ) (class_names : List String) :
    List String × Option String :=
  match mode with
  | AlexMode.url => ([], some "NameError: name testImg is not defined")
  | AlexMode.folder => alexnet_print_loop net class_names folder_keys

/-- C2: in `url` mode the script raises a `NameError` before printing
anything, because the `url` branch never assigns `testImg`; in `folder` mode
it prints one classification line per image. -/
theorem alexnet_script_url_crash :
    alexnet_script AlexMode.url ["dog.jpg"] (fun _ => [(1 : ℚ)]) ["dog"]
      = ([], some "NameError: name testImg is not defined")
    ∧ alexnet_script AlexMode.folder ["dog.jpg"] (fun _ => [(1 : ℚ)]) ["dog"]
      = (["dog.jpg: dog\n --- "], none) := by
  exact ⟨rfl, rfl⟩

/-- A framework call attempted inside the script's session. -/
inductive SessCall where
  | loadModel
  | classifyImg (key : String)
deriving DecidableEq

/-- The per-image half of the session, with each framework evaluation's
outcome supplied by `run_img`: returns the calls attempted in order and
either the printed lines or the first uncaught error. -/
def run_images (run_img : String → Except String String) :
    List String → List SessCall × Except String (List String)
  | [] => ([], Except.ok [])
  | key :: keys =>
      match run_img key with
      | Except.error e => ([SessCall.classifyImg key], Except.error e)
      | Except.ok line =>
          let rest := run_images run_img keys
          (SessCall.classifyImg key :: rest.1,
           match rest.2 with
           | Except.error e => Except.error e
           | Except.ok lines => Except.ok (line :: lines))

/-- The session body: `model.loadModel(sess)` followed by the image loop.
No call is wrapped in a handler, matching the source's absence of
`try`/`except`. -/
def alexnet_session (load_model : Except String Unit)
    (run_img : String → Except String String) (keys : List String) :
    List SessCall × Except String (List String) :=
  match load_model with
  | Except.error e => ([SessCall.loadModel], Except.error e)
  | Except.ok _ =>
      let rest := run_images run_img keys
      (SessCall.loadModel :: rest.1, rest.2)

theorem run_images_first_error (run_img : String → Except String String)
    (ks₁ : List String) (key : String) (ks₂ : List String) (e : String)
    (hok : ∀ k ∈ ks₁, ∃ v, run_img k = Except.ok v)
    (herr : run_img key = Except.error e) :
    run_images run_img (ks₁ ++ key :: ks₂)
      = ((ks₁ ++ [key]).map SessCall.classifyImg, Except.error e) := by
  induction ks₁ with
  | nil =>
      simp only [List.nil_append, List.map_cons, List.map_nil]
      unfold run_images
      rw [herr]
  | cons k ks₁ ih =>
      obtain ⟨v, hv⟩ := hok k (List.mem_cons_self k ks₁)
      have ih' := ih (fun k' hk' => hok k' (List.mem_cons_of_mem k hk'))
      simp only [List.cons_append]
      unfold run_images
      rw [hv, ih']
      simp

/-- C6: a failing framework call makes the session stop at that call with the
error propagated unchanged: a failing `loadModel` is the only call attempted,
and the first failing image evaluation ends the run right there, each
preceding call having been attempted exactly once; there is no retry or
recovery. -/
theorem alexnet_session_spec (load_model : Except String Unit)
    (run_img : String → Except String String) (keys : List String) :
    (∀ e, load_model = Except.error e →
        alexnet_session load_model run_img keys
          = ([SessCall.loadModel], Except.error e))
    ∧ (∀ ks₁ key ks₂ e, keys = ks₁ ++ key :: ks₂ →
        (∀ k ∈ ks₁, ∃ v, run_img k = Except.ok v) →
        run_img key = Except.error e →
        load_model = Except.ok () →
        alexnet_session load_model run_img keys
          = (SessCall.loadModel :: (ks₁ ++ [key]).map SessCall.classifyImg,
             Except.error e)) := by
  constructor
  · intro e he
    unfold alexnet_session
    rw [he]
  · intro ks₁ key ks₂ e hkeys hok herr hlm
    subst hkeys
    unfold alexnet_session
    rw [hlm, run_images_first_error run_img ks₁ key ks₂ e hok herr]

theorem alexnet_session_spec_witness :
    alexnet_session (Except.ok ())
        (fun k => if k = "b.jpg" then Except.error "cv2.error"
                  else Except.ok (k ++ ": label"))
        ["a.jpg", "b.jpg", "c.jpg"]
      = ([SessCall.loadModel, SessCall.classifyImg "a.jpg",
          SessCall.classifyImg "b.jpg"], Except.error "cv2.error") := by
  have h := (alexnet_session_spec (Except.ok ())
      (fun k => if k = "b.jpg" then Except.error "cv2.error"
                else Except.ok (k ++ ": label"))
      ["a.jpg", "b.jpg", "c.jpg"]).2
    ["a.jpg"] "b.jpg" ["c.jpg"] "cv2.error" rfl
    (by
      intro k hk
      simp only [List.mem_singleton] at hk
      subst hk
      exact ⟨"a.jpg: label", by rfl⟩)
    (by rfl) rfl
  simpa using h
